import Mathlib

/-!
Shallow embedding of `rottentomatoes/rottentomatoes.py` (the `RT` class),
a thin client for the Rotten Tomatoes web API.  Pure URL assembly is
translated directly; the external effects (`urlopen`, `zlib.decompress`,
`json.loads`) are abstracted into a `World` record of functions, so each
method becomes a pure function of the world and its arguments.
-/

set_option autoImplicit false

namespace RottenTomatoes

/-- A JSON value as produced by Python's `json.loads`: null, booleans,
numbers, strings, arrays and objects.  Numbers are modelled as integers,
which covers every value the claims touch.  Python `None` coincides with
JSON `null` under `json`, so the implicit `None` return of `RT.new` is
also represented by `Json.null`. -/
inductive Json where
  | null : Json
  | bool (b : Bool) : Json
  | num (n : Int) : Json
  | str (s : String) : Json
  | arr (elems : List Json) : Json
  | obj (fields : List (String × Json)) : Json

/-- The errors the client can surface, following the spec's taxonomy:
`configurationError` is the `assert self.api_key != None` failure,
`decodeError` a `json.loads` failure, `lookupError k` a Python `KeyError`
on key `k`, `indexOutOfRange` a Python `IndexError`, and `typeError`
a Python `TypeError` from subscripting a non-subscriptable value. -/
inductive RTError where
  | configurationError : RTError
  | decodeError : RTError
  | lookupError (key : String) : RTError
  | indexOutOfRange : RTError
  | typeError : RTError
deriving DecidableEq, Repr

/-- First-match lookup in an association list with string keys
(Python dicts have unique keys, so first match is the dict lookup). -/
def alistLookup {α : Type} : List (String × α) → String → Option α
  | [], _ => none
  | (k', v) :: rest, k => if k' = k then some v else alistLookup rest k

/-- Python `d[key]` for a decoded JSON value `d` and a string `key`:
a `KeyError` (→ `lookupError`) when `d` is an object missing the key,
and a `TypeError` when `d` is not an object (lists and strings reject
string subscripts; null, booleans and numbers are not subscriptable). -/
def Json.getKey : Json → String → Except RTError Json
  | .obj kvs, k =>
    match alistLookup kvs k with
    | some v => .ok v
    | none => .error (.lookupError k)
  | _, _ => .error .typeError

/-- Python `d[i]` for a non-negative integer index `i`: list indexing
with `IndexError` when out of range; string indexing yields a one-char
string (`IndexError` when out of range); a dict raises `KeyError` for an
integer key (decoded JSON objects only have string keys); anything else
raises `TypeError`.  Only `i = 0` occurs in the source. -/
def Json.getIdx : Json → Nat → Except RTError Json
  | .arr xs, i =>
    match xs.get? i with
    | some v => .ok v
    | none => .error .indexOutOfRange
  | .str s, i =>
    match s.toList.get? i with
    | some c => .ok (.str (String.singleton c))
    | none => .error .indexOutOfRange
  | .obj _, i => .error (.lookupError (toString i))
  | _, _ => .error .typeError

/-- Python truthiness of an optional string argument: `None` and the
empty string are falsy (`if directory:` / `if sub:` / `if specific_info:`
in the source). -/
def truthy : Option String → Bool
  | none => false
  | some s => s != ""

/-- Python `dict.__setitem__` on a dict encoded as an association list:
replace the value if the key is present, otherwise append the binding. -/
def dictInsert (d : List (String × String)) (k v : String) :
    List (String × String) :=
  if d.any (fun p => p.1 = k) then
    d.map (fun p => if p.1 = k then (k, v) else p)
  else d ++ [(k, v)]

/-- Python `kwargs.update(updates)`: set each binding of `updates` in
turn, overwriting existing keys. -/
def dictUpdate (d : List (String × String))
    (updates : List (String × String)) : List (String × String) :=
  updates.foldl (fun acc p => dictInsert acc p.1 p.2) d

/-- One hex digit, uppercase, as produced by Python 2's `urllib.quote`. -/
def hexDigit (n : Nat) : Char :=
  if n < 10 then Char.ofNat (48 + n) else Char.ofNat (55 + n)

/-- Characters `urllib.quote_plus` leaves unescaped: letters, digits and
`_ . -` (Python 2's `always_safe`, with the empty `safe` set that
`urlencode` passes). -/
def isUrlSafe (c : Char) : Bool :=
  c.isAlphanum || c == '_' || c == '.' || c == '-'

/-- Python 2 `urllib.quote_plus` on ASCII text: safe characters pass
through, a space becomes `+`, anything else becomes `%XX` (byte value in
uppercase hex; inputs here are ASCII, so one character is one byte). -/
def quotePlus (s : String) : String :=
  String.join (s.toList.map (fun c =>
    if isUrlSafe c then String.singleton c
    else if c == ' ' then "+"
    else
      let n := c.toNat % 256
      "%" ++ String.singleton (hexDigit (n / 16)) ++
        String.singleton (hexDigit (n % 16))))

/-- Python `urllib.urlencode` on a dict encoded as an association list
(values already stringified, as `urlencode` does via `str()`):
`k1=v1&k2=v2&...` with both sides quoted. -/
def urlencode (d : List (String × String)) : String :=
  String.intercalate "&"
    (d.map (fun p => quotePlus p.1 ++ "=" ++ quotePlus p.2))

/-- The module-level `API_KEY` fallback: the bundled
`rottentomatoes_api_key.API_KEY` secret when that import succeeds,
otherwise `os.environ.get('RT_KEY')` (which is `None` when the
environment variable is unset). -/
def resolveApiKey (bundled : Option String) (env : Option String) :
    Option String :=
  match bundled with
  | some k => some k
  | none => env

/-- The `version` argument of `RT.__init__`: a Python float (identified
by its `str()` rendering, e.g. `"1.0"`) or a string.  These are the two
forms the API documents (`version=1.0` default, or a version string). -/
inductive PyVersion where
  | float (render : String) : PyVersion
  | str (s : String) : PyVersion

/-- The string the constructor interpolates into the URL template:
`str(version)` for a float (the explicit normalization step), the string
itself otherwise. -/
def pyVersionStr : PyVersion → String
  | .float r => r
  | .str s => s

/-- The `id_num` argument of `RT.info`: a Python int or string. -/
inductive PyId where
  | int (n : Int) : PyId
  | str (s : String) : PyId

/-- The `RT` client object after construction: API key, normalized
version and the three derived URLs. -/
structure RT where
  api_key : String
  version : String
  BASE_URL : String
  lists_url : String
  movie_url : String
deriving DecidableEq, Repr

/-- The external effects of one run, abstracted: `net url` is
`urlopen(url).read()` (the raw response body), `gunzip` is
`zlib.decompress(·, 16+zlib.MAX_WBITS)` (gzip-container decompression,
`.error ()` standing for `zlib.error`), and `loads` is `json.loads`
(`.error` standing for a JSON decode failure). -/
structure World where
  net : String → List Nat
  gunzip : List Nat → Except Unit (List Nat)
  loads : List Nat → Except RTError Json

/-- The `BASE_URL` template of the constructor:
`'http://api.rottentomatoes.com/api/public/v%s/' % version`. -/
def baseUrlFor (version : String) : String :=
  "http://api.rottentomatoes.com/api/public/v" ++ version ++ "/"

/-- Embeds `RT.__init__(api_key='', version=1.0)`.  `API_KEY` is the
module fallback (see `resolveApiKey`).  `if not api_key:` on a string
argument means `api_key == ''`; the `assert self.api_key != None`
failure is `configurationError`.  Note the assert only rejects `None`:
an empty-string fallback value passes it. -/
def RT.init (API_KEY : Option String) (api_key : String := "")
    (version : PyVersion := .float "1.0") : Except RTError RT :=
  match (if api_key = "" then API_KEY else some api_key) with
  | none => .error .configurationError
  | some k =>
    .ok { api_key := k
          version := pyVersionStr version
          BASE_URL := baseUrlFor (pyVersionStr version)
          lists_url := baseUrlFor (pyVersionStr version) ++ "lists"
          movie_url := baseUrlFor (pyVersionStr version) ++ "movies" }

/-- Embeds `RT._load_json_from_url(url)`: read the body, try gzip
decompression, fall back to the raw bytes on `zlib.error`, then
`json.loads` the result. -/
def RT.loadJsonFromUrl (w : World) (_self : RT) (url : String) :
    Except RTError Json :=
  let response := w.net url
  let response :=
    match w.gunzip response with
    | .ok decompressed => decompressed
    | .error _ => response
  w.loads response

/-- The dict `search` passes to `urlencode`: caller kwargs updated with
`{'apikey': self.api_key, 'q': query}`. -/
def RT.searchParams (self : RT) (query : String)
    (kwargs : List (String × String)) : List (String × String) :=
  dictUpdate kwargs [("apikey", self.api_key), ("q", query)]

/-- The URL `search` fetches: `''.join([self.movie_url, '?', urlencode(kwargs)])`. -/
def RT.search_url (self : RT) (query : String)
    (kwargs : List (String × String)) : String :=
  String.join [self.movie_url, "?", urlencode (self.searchParams query kwargs)]

/-- Embeds `RT.search(query, datatype='movies', **kwargs)`: fetch the
search URL, decode, return `data[datatype]`. -/
def RT.search (w : World) (self : RT) (query : String)
    (datatype : String := "movies")
    (kwargs : List (String × String) := []) : Except RTError Json :=
  (self.loadJsonFromUrl w (self.search_url query kwargs)).bind
    (fun data => data.getKey datatype)

/-- The dict `lists` passes to `urlencode`: caller kwargs updated with
`{'apikey': self.api_key}`. -/
def RT.listsParams (self : RT) (kwargs : List (String × String)) :
    List (String × String) :=
  dictUpdate kwargs [("apikey", self.api_key)]

/-- The URL `lists` fetches: `[self.lists_url]`, then `/dir/sub` or
`/dir` when truthy, then `.json?` and the encoded query. -/
def RT.lists_url_built (self : RT) (directory sub : Option String)
    (kwargs : List (String × String)) : String :=
  let segs := [self.lists_url]
  let segs :=
    if truthy directory then
      if truthy sub then
        segs ++ ["/" ++ directory.getD "" ++ "/" ++ sub.getD ""]
      else
        segs ++ ["/" ++ directory.getD ""]
    else segs
  String.join (segs ++ [".json?", urlencode (self.listsParams kwargs)])

/-- Embeds `RT.lists(directory=None, sub=None, **kwargs)`: fetch the
built URL and return the full decoded payload. -/
def RT.lists (w : World) (self : RT)
    (directory : Option String := none) (sub : Option String := none)
    (kwargs : List (String × String) := []) : Except RTError Json :=
  self.loadJsonFromUrl w (self.lists_url_built directory sub kwargs)

/-- The dict `info` passes to `urlencode`: `{'apikey': self.api_key}`. -/
def RT.infoParams (self : RT) : List (String × String) :=
  [("apikey", self.api_key)]

/-- The URL `info` fetches: `movies/{id}[/{specific_info}].json?apikey=...`;
an integer id is stringified first. -/
def RT.info_url (self : RT) (id_num : PyId)
    (specific_info : Option String) : String :=
  let idStr :=
    match id_num with
    | .int n => toString n
    | .str s => s
  let segs := [self.movie_url, "/" ++ idStr]
  let segs :=
    if truthy specific_info then segs ++ ["/" ++ specific_info.getD ""]
    else segs
  String.join (segs ++ [".json?", urlencode self.infoParams])

/-- Embeds `RT.info(id_num, specific_info=None)`: fetch the built URL
and return the full decoded payload. -/
def RT.info (w : World) (self : RT) (id_num : PyId)
    (specific_info : Option String := none) : Except RTError Json :=
  self.loadJsonFromUrl w (self.info_url id_num specific_info)

/-- Embeds `RT.movies(sub='in_theaters', **kwargs)`:
`self.lists('movies', sub, **kwargs)['movies']`. -/
def RT.movies (w : World) (self : RT) (sub : String := "in_theaters")
    (kwargs : List (String × String) := []) : Except RTError Json :=
  (self.lists w (some "movies") (some sub) kwargs).bind
    (fun data => data.getKey "movies")

/-- Embeds `RT.dvds(sub='new_releases', **kwargs)`:
`self.lists('dvds', sub, **kwargs)['movies']`. -/
def RT.dvds (w : World) (self : RT) (sub : String := "new_releases")
    (kwargs : List (String × String) := []) : Except RTError Json :=
  (self.lists w (some "dvds") (some sub) kwargs).bind
    (fun data => data.getKey "movies")

/-- Embeds `RT.new(kind='movies', **kwargs)`: the two convenience
branches; any other `kind` falls off the end of the Python function,
which implicitly returns `None` (= `Json.null`). -/
def RT.new (w : World) (self : RT) (kind : String := "movies")
    (kwargs : List (String × String) := []) : Except RTError Json :=
  if kind = "movies" then
    (self.lists w (some "movies") (some "opening") kwargs).bind
      (fun data => data.getKey "movies")
  else if kind = "dvds" then
    (self.lists w (some "dvds") (some "new_releases") kwargs).bind
      (fun data => data.getKey "movies")
  else
    .ok .null

/-- Embeds `RT.feeling_lucky(search_term)`:
`self.search(search_term, page_limit=1)[0]` (datatype defaults to
`'movies'`; `urlencode` renders the int `1` as `"1"`). -/
def RT.feeling_lucky (w : World) (self : RT) (search_term : String) :
    Except RTError Json :=
  (self.search w search_term "movies" [("page_limit", "1")]).bind
    (fun data => data.getIdx 0)

/-- A concrete client (the one `RT.init (some "k")` produces), used to
instantiate the theorems below at concrete inputs. -/
def rtK : RT :=
  { api_key := "k"
    version := "1.0"
    BASE_URL := "http://api.rottentomatoes.com/api/public/v1.0/"
    lists_url := "http://api.rottentomatoes.com/api/public/v1.0/lists"
    movie_url := "http://api.rottentomatoes.com/api/public/v1.0/movies" }

/-- A world whose server answers every request with an uncompressed body
that decodes to the fixed payload `p`; used to instantiate theorems. -/
def constWorld (p : Json) : World :=
  { net := fun _ => []
    gunzip := fun _ => .error ()
    loads := fun _ => .ok p }

/-- A world with one plain body `[123, 125]` (the bytes of `"{}"`,
served at URL `"plain"`) and its mock gzip compression
`[31, 139, 123, 125]` (gzip magic header prepended, served at URL
`"gz"`); `gunzip` accepts exactly the bodies that start with the magic
header, and `loads` decodes `"{}"` to the empty object. -/
def gzWorld : World :=
  { net := fun url => if url = "plain" then [123, 125] else [31, 139, 123, 125]
    gunzip := fun bs =>
      match bs with
      | 31 :: 139 :: rest => .ok rest
      | _ => .error ()
    loads := fun bs =>
      if bs = [123, 125] then .ok (.obj []) else .error .decodeError }

/-! Helper lemmas about association-list lookup and dict updates. -/

theorem alistLookup_nil {α : Type} (k : String) :
    alistLookup ([] : List (String × α)) k = none := rfl

theorem alistLookup_cons {α : Type} (k' : String) (v : α)
    (rest : List (String × α)) (k : String) :
    alistLookup ((k', v) :: rest) k =
      if k' = k then some v else alistLookup rest k := rfl

theorem alistLookup_map_replace (d : List (String × String)) (k v : String)
    (h : d.any (fun p => p.1 = k) = true) :
    alistLookup (d.map (fun p => if p.1 = k then (k, v) else p)) k = some v := by
  induction d with
  | nil => simp at h
  | cons hd tl ih =>
    obtain ⟨k', v'⟩ := hd
    simp only [List.any_cons, Bool.or_eq_true, decide_eq_true_eq] at h
    by_cases hk : k' = k
    · subst hk
      simp [alistLookup_cons]
    · have htl : tl.any (fun p => p.1 = k) = true := by
        rcases h with h | h
        · exact absurd h hk
        · exact h
      simp [alistLookup_cons, hk, ih htl]

theorem alistLookup_append_single (d : List (String × String))
    (k v : String) (h : d.any (fun p => p.1 = k) = false) :
    alistLookup (d ++ [(k, v)]) k = some v := by
  induction d with
  | nil => simp [alistLookup_nil, alistLookup_cons]
  | cons hd tl ih =>
    obtain ⟨k', v'⟩ := hd
    simp only [List.any_cons, Bool.or_eq_false_iff,
      decide_eq_false_iff_not] at h
    simp [alistLookup_cons, h.1, ih h.2]

theorem alistLookup_map_replace_ne (d : List (String × String))
    (k k' v : String) (hne : k ≠ k') :
    alistLookup (d.map (fun p => if p.1 = k' then (k', v) else p)) k =
      alistLookup d k := by
  induction d with
  | nil => rfl
  | cons hd tl ih =>
    obtain ⟨k'', v''⟩ := hd
    by_cases hk : k'' = k'
    · subst hk
      simp [alistLookup_cons, Ne.symm hne, ih]
    · simp [alistLookup_cons, hk, ih]

theorem alistLookup_append_single_ne (d : List (String × String))
    (k k' v : String) (hne : k ≠ k') :
    alistLookup (d ++ [(k', v)]) k = alistLookup d k := by
  induction d with
  | nil => simp [alistLookup_nil, alistLookup_cons, Ne.symm hne]
  | cons hd tl ih =>
    obtain ⟨k'', v''⟩ := hd
    simp [alistLookup_cons, ih]

/-- Setting key `k` in a dict makes lookup of `k` return the new value. -/
theorem alistLookup_dictInsert_self (d : List (String × String))
    (k v : String) : alistLookup (dictInsert d k v) k = some v := by
  unfold dictInsert
  split
  · next h => exact alistLookup_map_replace d k v h
  · next h =>
      exact alistLookup_append_single d k v
        (by simp only [Bool.not_eq_true] at h; exact h)

/-- Setting key `k'` in a dict leaves lookup of any other key unchanged. -/
theorem alistLookup_dictInsert_ne (d : List (String × String))
    (k k' v : String) (hne : k ≠ k') :
    alistLookup (dictInsert d k' v) k = alistLookup d k := by
  unfold dictInsert
  split
  · exact alistLookup_map_replace_ne d k k' v hne
  · exact alistLookup_append_single_ne d k k' v hne

/-- C1: fetch-and-decode (`_load_json_from_url`) is transparent to gzip
response framing.  If body `b` decodes to the JSON value `v` (and, being
JSON text, does not decompress as a gzip stream — JSON text never starts
with the gzip magic bytes `0x1f 0x8b`, so `zlib.decompress` with
`16+MAX_WBITS` raises `zlib.error` on it), then a response serving `b`
yields `v`; and a response serving `gz`, the gzip compression of `b`
(`gunzip gz = .ok b`), yields the identical value `v`.  Decompression
failure is the no-compression signal, not an error. -/
theorem loadJsonFromUrl_gzip_transparent
    (w : World) (rt : RT) (url_plain url_gz : String)
    (b gz : List Nat) (v : Json)
    (hloads : w.loads b = .ok v)
    (hplain : w.gunzip b = .error ())
    (hgz : w.gunzip gz = .ok b)
    (hnet1 : w.net url_plain = b)
    (hnet2 : w.net url_gz = gz) :
    rt.loadJsonFromUrl w url_plain = .ok v ∧
      rt.loadJsonFromUrl w url_gz = .ok v := by
  constructor
  · simp only [RT.loadJsonFromUrl]
    rw [hnet1, hplain]
    exact hloads
  · simp only [RT.loadJsonFromUrl]
    rw [hnet2, hgz]
    exact hloads

/-- Witness for C1 at a concrete world: the body `"{}"` and its mock
gzip framing both decode to the empty object. -/
theorem loadJsonFromUrl_gzip_transparent_witness :
    gzWorld.loads [123, 125] = .ok (.obj []) ∧
    gzWorld.gunzip [123, 125] = .error () ∧
    gzWorld.gunzip [31, 139, 123, 125] = .ok [123, 125] ∧
    gzWorld.net "plain" = [123, 125] ∧
    gzWorld.net "gz" = [31, 139, 123, 125] ∧
    RT.loadJsonFromUrl gzWorld rtK "plain" = .ok (.obj []) ∧
    RT.loadJsonFromUrl gzWorld rtK "gz" = .ok (.obj []) :=
  ⟨rfl, rfl, rfl, rfl, rfl,
   (loadJsonFromUrl_gzip_transparent gzWorld rtK "plain" "gz"
      [123, 125] [31, 139, 123, 125] (.obj []) rfl rfl rfl rfl rfl).1,
   (loadJsonFromUrl_gzip_transparent gzWorld rtK "plain" "gz"
      [123, 125] [31, 139, 123, 125] (.obj []) rfl rfl rfl rfl rfl).2⟩

/-- C2 counterexample: with the explicit argument empty, no bundled
secret, and the environment variable `RT_KEY` set to the empty string,
no source yields a non-empty key, yet construction succeeds (the code
only asserts `self.api_key != None`, and `os.environ.get` returns the
empty string, not `None`).  The claim says construction succeeds only if
some source yields a non-empty key; here it succeeds with an empty key. -/
theorem init_empty_env_key_succeeds :
    RT.init (resolveApiKey none (some "")) "" (.float "1.0")
      = .ok { api_key := ""
              version := "1.0"
              BASE_URL := "http://api.rottentomatoes.com/api/public/v1.0/"
              lists_url := "http://api.rottentomatoes.com/api/public/v1.0/lists"
              movie_url := "http://api.rottentomatoes.com/api/public/v1.0/movies" } :=
  rfl

/-- C2 (amended): construction fails, with `ConfigurationError`, exactly
when the explicit argument is empty AND the bundled secret is absent AND
the environment variable is unset; a source that yields the empty string
counts as present, so construction can succeed with an empty key. -/
theorem init_configurationError_iff
    (bundled env : Option String) (arg : String) (version : PyVersion) :
    RT.init (resolveApiKey bundled env) arg version
        = .error .configurationError ↔
      arg = "" ∧ bundled = none ∧ env = none := by
  unfold RT.init resolveApiKey
  by_cases h : arg = "" <;> cases bundled <;> cases env <;> simp [h]

/-- C3: for every query, datatype and caller options, when the search
URL decodes to the object payload `kvs`, `search` returns exactly the
value at key `datatype` of that payload, and fails with `LookupError`
(on that key) exactly when the key is absent.  (A payload that is not a
JSON object is not subscriptable by a string key in Python and raises
`TypeError` instead; the claim's payloads, like the API's, are objects.) -/
theorem search_returns_datatype_key
    (w : World) (rt : RT) (query datatype : String)
    (kw : List (String × String)) (kvs : List (String × Json))
    (hfetch : rt.loadJsonFromUrl w (rt.search_url query kw) = .ok (.obj kvs)) :
    RT.search w rt query datatype kw =
      match alistLookup kvs datatype with
      | some v => .ok v
      | none => .error (.lookupError datatype) := by
  unfold RT.search
  rw [hfetch]
  rfl

/-- Witness for C3 at the concrete payload
`{"total": 5, "movies": []}` with datatype `"total"`: the result is `5`. -/
theorem search_returns_datatype_key_witness :
    RT.loadJsonFromUrl
        (constWorld (.obj [("total", .num 5), ("movies", .arr [])])) rtK
        (rtK.search_url "x" []) =
      .ok (.obj [("total", .num 5), ("movies", .arr [])]) ∧
    RT.search (constWorld (.obj [("total", .num 5), ("movies", .arr [])]))
        rtK "x" "total" [] = .ok (.num 5) :=
  ⟨rfl,
   search_returns_datatype_key
     (constWorld (.obj [("total", .num 5), ("movies", .arr [])]))
     rtK "x" "total" [] [("total", .num 5), ("movies", .arr [])] rfl⟩

/-- C4: when `search(term, page_limit=1)` (with the default datatype
`movies`) yields the sequence `xs`, `feeling_lucky term` returns element
0 of `xs`, and fails with `IndexOutOfRange` when `xs` is empty rather
than returning a default. -/
theorem feeling_lucky_first_element
    (w : World) (rt : RT) (term : String) (xs : List Json) :
    RT.search w rt term "movies" [("page_limit", "1")] = .ok (.arr xs) →
    RT.feeling_lucky w rt term =
      match xs with
      | [] => .error .indexOutOfRange
      | x :: _ => .ok x := by
  cases xs with
  | nil => intro h; unfold RT.feeling_lucky; rw [h]; rfl
  | cons x rest => intro h; unfold RT.feeling_lucky; rw [h]; rfl

/-- Witness for C4 at two concrete worlds: a one-element result list
(first element returned) and an empty result list (`IndexOutOfRange`). -/
theorem feeling_lucky_first_element_witness :
    RT.search (constWorld (.obj [("movies", .arr [.str "memento"])])) rtK
        "memento" "movies" [("page_limit", "1")] = .ok (.arr [.str "memento"]) ∧
    RT.feeling_lucky (constWorld (.obj [("movies", .arr [.str "memento"])]))
        rtK "memento" = .ok (.str "memento") ∧
    RT.search (constWorld (.obj [("movies", .arr [])])) rtK
        "memento" "movies" [("page_limit", "1")] = .ok (.arr []) ∧
    RT.feeling_lucky (constWorld (.obj [("movies", .arr [])])) rtK "memento"
      = .error .indexOutOfRange :=
  ⟨rfl,
   feeling_lucky_first_element
     (constWorld (.obj [("movies", .arr [.str "memento"])])) rtK
     "memento" [.str "memento"] rfl,
   rfl,
   feeling_lucky_first_element
     (constWorld (.obj [("movies", .arr [])])) rtK "memento" [] rfl⟩

/-- C5: the `lists` URL has the path shape `.../lists[/dir[/sub]].json`
followed by the query string — `lists("dvds", "new_releases")` builds
`.../lists/dvds/new_releases.json?...`, `lists("dvds")` builds
`.../lists/dvds.json?...`, `lists()` builds `.../lists.json?...` — and
in every case `lists` returns the full decoded payload of that URL with
no sub-key extraction. -/
theorem lists_url_shapes
    (w : World) (rt : RT) (kw : List (String × String)) :
    rt.lists_url_built (some "dvds") (some "new_releases") kw
        = rt.lists_url ++ "/dvds/new_releases" ++ ".json?"
            ++ urlencode (rt.listsParams kw) ∧
    rt.lists_url_built (some "dvds") none kw
        = rt.lists_url ++ "/dvds" ++ ".json?" ++ urlencode (rt.listsParams kw) ∧
    rt.lists_url_built none none kw
        = rt.lists_url ++ ".json?" ++ urlencode (rt.listsParams kw) ∧
    ∀ (directory sub : Option String) (payload : Json),
      rt.loadJsonFromUrl w (rt.lists_url_built directory sub kw)
          = .ok payload →
      RT.lists w rt directory sub kw = .ok payload := by
  refine ⟨rfl, rfl, rfl, fun directory sub payload h => h⟩

/-- Witness for C5's payload conjunct at a concrete world. -/
theorem lists_url_shapes_witness :
    RT.loadJsonFromUrl (constWorld (.obj [("links", .null)])) rtK
        (rtK.lists_url_built (some "dvds") (some "new_releases") [])
      = .ok (.obj [("links", .null)]) ∧
    RT.lists (constWorld (.obj [("links", .null)])) rtK
        (some "dvds") (some "new_releases") [] = .ok (.obj [("links", .null)]) :=
  ⟨rfl,
   (lists_url_shapes (constWorld (.obj [("links", .null)])) rtK []).2.2.2
     (some "dvds") (some "new_releases") (.obj [("links", .null)]) rfl⟩

/-- C6: `info` stringifies integer ids, so an integer id and its string
form produce the identical request URL, and hence identical requests. -/
theorem info_int_str_id_equiv
    (w : World) (rt : RT) (n : Int) (si : Option String) :
    rt.info_url (.int n) si = rt.info_url (.str (toString n)) si ∧
      RT.info w rt (.int n) si = RT.info w rt (.str (toString n)) si :=
  ⟨rfl, rfl⟩

/-- C7: a successful construction normalizes the version to its string
form and derives the three URLs from the fixed template: `BASE_URL` is
`http://api.rottentomatoes.com/api/public/v{version}/`, and the lists
and movies URLs extend it by `lists` and `movies`. -/
theorem init_version_urls
    (API_KEY : Option String) (arg : String) (version : PyVersion) (rt : RT)
    (h : RT.init API_KEY arg version = .ok rt) :
    rt.version = pyVersionStr version ∧
    rt.BASE_URL = "http://api.rottentomatoes.com/api/public/v"
        ++ pyVersionStr version ++ "/" ∧
    rt.lists_url = rt.BASE_URL ++ "lists" ∧
    rt.movie_url = rt.BASE_URL ++ "movies" := by
  unfold RT.init at h
  cases hk : (if arg = "" then API_KEY else some arg) with
  | none => rw [hk] at h; exact absurd h (by simp)
  | some k =>
    rw [hk] at h
    cases h
    exact ⟨rfl, rfl, rfl, rfl⟩

/-- Witness for C7: constructing with key `"k"` and version `1.0` yields
exactly the client `rtK`. -/
theorem init_version_urls_witness :
    RT.init (resolveApiKey (some "k") none) "" (.float "1.0") = .ok rtK ∧
    rtK.version = pyVersionStr (.float "1.0") ∧
    rtK.BASE_URL = "http://api.rottentomatoes.com/api/public/v"
        ++ pyVersionStr (.float "1.0") ++ "/" ∧
    rtK.lists_url = rtK.BASE_URL ++ "lists" ∧
    rtK.movie_url = rtK.BASE_URL ++ "movies" :=
  ⟨rfl, init_version_urls (resolveApiKey (some "k") none) "" (.float "1.0")
    rtK rfl⟩

/-- C8: `movies(sub, options)` is exactly
`lists("movies", sub, options)["movies"]`, and `dvds(sub, options)` is
exactly `lists("dvds", sub, options)["movies"]`: the same arguments are
forwarded and the `movies` sub-key is extracted from the payload
(errors, including a missing `movies` key, propagate through the
extraction unchanged). -/
theorem movies_dvds_delegate
    (w : World) (rt : RT) (sub : String) (kw : List (String × String)) :
    RT.movies w rt sub kw
        = (RT.lists w rt (some "movies") (some sub) kw).bind
            (fun data => data.getKey "movies") ∧
    RT.dvds w rt sub kw
        = (RT.lists w rt (some "dvds") (some sub) kw).bind
            (fun data => data.getKey "movies") :=
  ⟨rfl, rfl⟩

/-- C9: `new("movies", options)` is
`lists("movies", "opening", options)["movies"]`, `new("dvds", options)`
is `lists("dvds", "new_releases", options)["movies"]`, and any other
kind falls off the end of the Python function, silently returning
`None` (no error is raised). -/
theorem new_kind_behavior
    (w : World) (rt : RT) (kw : List (String × String)) (kind : String) :
    RT.new w rt "movies" kw
        = (RT.lists w rt (some "movies") (some "opening") kw).bind
            (fun data => data.getKey "movies") ∧
    RT.new w rt "dvds" kw
        = (RT.lists w rt (some "dvds") (some "new_releases") kw).bind
            (fun data => data.getKey "movies") ∧
    (kind ≠ "movies" → kind ≠ "dvds" → RT.new w rt kind kw = .ok .null) := by
  refine ⟨rfl, rfl, fun h1 h2 => ?_⟩
  unfold RT.new
  rw [if_neg h1, if_neg h2]

/-- Witness for C9's third conjunct at the concrete kind `"books"`. -/
theorem new_kind_behavior_witness :
    "books" ≠ "movies" ∧ "books" ≠ "dvds" ∧
    RT.new (constWorld .null) rtK "books" [] = .ok .null :=
  ⟨by decide, by decide,
   (new_kind_behavior (constWorld .null) rtK [] "books").2.2
     (by decide) (by decide)⟩

/-- C10: every request URL carries the client's key: after the
`kwargs.update` calls, the dict `search` encodes maps `apikey` to the
client's stored key and `q` to the query argument (whatever the caller
put under those keys), the dict `lists` encodes maps `apikey` to the
stored key, and `info`'s query dict is exactly `{'apikey': key}`; the
built search URL is the movie URL, `?`, and the encoding of that dict. -/
theorem apikey_never_overridden
    (rt : RT) (query : String) (kw : List (String × String)) :
    alistLookup (rt.searchParams query kw) "apikey" = some rt.api_key ∧
    alistLookup (rt.searchParams query kw) "q" = some query ∧
    alistLookup (rt.listsParams kw) "apikey" = some rt.api_key ∧
    alistLookup rt.infoParams "apikey" = some rt.api_key ∧
    rt.search_url query kw
      = rt.movie_url ++ "?" ++ urlencode (rt.searchParams query kw) := by
  refine ⟨?_, ?_, ?_, rfl, rfl⟩
  · show alistLookup
      (dictInsert (dictInsert kw "apikey" rt.api_key) "q" query) "apikey"
      = some rt.api_key
    rw [alistLookup_dictInsert_ne _ "apikey" "q" query (by decide)]
    exact alistLookup_dictInsert_self kw "apikey" rt.api_key
  · exact alistLookup_dictInsert_self
      (dictInsert kw "apikey" rt.api_key) "q" query
  · exact alistLookup_dictInsert_self kw "apikey" rt.api_key

end RottenTomatoes
